import Mathlib

/-!
Shallow embedding of the soc-log-detective detection and correlation engine
(src/log_detective), together with proofs about it.

Modelling conventions:
* Python `datetime` values are integers (seconds); `timedelta(minutes=m)` is
  `60 * m` and `timedelta(hours=h)` is `3600 * h`, with the duration
  parameters taken as integers on the same grid (the code treats durations
  as opaque reals; every comparison it performs scales).
* Python dictionaries keyed in insertion order (`defaultdict` grouping,
  `dict.get` with defaults) are modelled by association lists in
  first-occurrence order; python sets are modelled by duplicate-free lists in
  first-occurrence order (only membership is ever observed by the code under
  proof, except for set iteration in presentation text, where the
  first-occurrence order is a deterministic stand-in).
* `list.sort(key=...)` (a stable sort) is modelled by `List.insertionSort`
  with the non-strict key comparison, which is also stable.
* `uuid.uuid4()` identifiers are external randomness: alert identifiers are
  modelled by their constant prefix, and `correlate_cases` takes the case
  identifier generator as an explicit parameter.
* The `haversine` distance and the optional `user_agents` parser are external
  libraries, not repository code: distance is an explicit function parameter
  and user-agent classification uses the in-repo fallback classifier.
* Presentation-only data (alert `description` strings, rounded float display
  values in evidence) and logging calls are omitted; no claim depends on them.
-/

/-- Evidence bag of an alert (`Alert.evidence` in schema usage): a
heterogeneous dict, modelled as a structure whose optional fields are the
keys the code under proof reads or writes; `dict.get(k, d)` is `Option.getD`.
Presentation-only keys (timestamps as strings, rounded floats, top-IP table)
are omitted. -/
structure Evidence where
  ips : List String := []
  device_ids : List String := []
  countries : List String := []
  failure_count : Option Nat := none
  distinct_ips : Option Nat := none
  max_same_ip_failures : Option Nat := none
  attack_type : Option String := none
  threshold_used : Option Int := none
  is_new_device : Option Bool := none
  is_new_ua_family : Option Bool := none
  is_new_country : Option Bool := none
deriving DecidableEq, Repr

/-- Modelled from the spec: one normalized authentication event
(`AuthEvent` of section 3 of the spec; the schema module itself is not under
src/, its fields are fixed by the spec and by every use in the detectors).
`ts` is in seconds; `raw`, `city` and `failure_reason` are omitted
(never read by the code under proof). -/
structure AuthEvent where
  event_id : String
  user : String
  ts : Int
  source_ip : String
  country : Option String := none
  lat : Option ℚ := none
  lon : Option ℚ := none
  device_id : Option String := none
  user_agent : Option String := none
  result : String
deriving DecidableEq, Repr

/-- Modelled from the spec: one detector finding (`Alert` of section 3 of the
spec; schema module not under src/). `description` is omitted
(presentation-only free text). -/
structure Alert where
  alert_id : String
  detector : String
  ts_start : Int
  ts_end : Int
  user : String
  severity : String
  score : Nat
  title : String
  evidence : Evidence
  mitre : List String := []
  related_event_ids : List String := []
deriving DecidableEq, Repr

/-- Modelled from the spec: a correlated bundle of alerts (`Case` of
section 3 of the spec; schema module not under src/). -/
structure Case where
  case_id : String
  user : String
  ts_start : Int
  ts_end : Int
  alerts : List Alert
  overall_severity : String
  overall_score : Nat
  summary : String
  recommended_actions : List String
  timeline : List AuthEvent
deriving DecidableEq, Repr

/-- Keys of a list in first-occurrence order: the key list of a python
`defaultdict` / the deterministic denotation of a python set built by
repeated insertion. -/
def keysInOrder (key : α → String) (l : List α) : List String :=
  l.foldl (fun acc x => if key x ∈ acc then acc else acc ++ [key x]) []

/-- Grouping by a string key, keys in first-occurrence order and each bucket
keeping the original element order: the denotation of
`defaultdict(list)` grouping followed by iteration over the dict. -/
def groupByKey (key : α → String) (l : List α) : List (String × List α) :=
  (keysInOrder key l).map (fun u => (u, l.filter (fun x => key x = u)))

/-- Insert into a duplicate-free list if absent: python set insertion. -/
def insertNew (l : List String) (x : String) : List String :=
  if x ∈ l then l else l ++ [x]

/-- Ordering of events by timestamp, the key of every `sort(key=lambda e: e.ts)`. -/
def rTs (a b : AuthEvent) : Prop := a.ts ≤ b.ts

instance : DecidableRel rTs := fun a b => inferInstanceAs (Decidable (a.ts ≤ b.ts))

instance : IsTotal AuthEvent rTs := ⟨fun a b => le_total a.ts b.ts⟩

instance : IsTrans AuthEvent rTs := ⟨fun _ _ _ h h2 => le_trans h h2⟩

/-- Ordering of alerts by start timestamp, the key of
`user_alert_list.sort(key=lambda a: a.ts_start)`. -/
def rStart (a b : Alert) : Prop := a.ts_start ≤ b.ts_start

instance : DecidableRel rStart := fun a b => inferInstanceAs (Decidable (a.ts_start ≤ b.ts_start))

instance : IsTotal Alert rStart := ⟨fun a b => le_total a.ts_start b.ts_start⟩

instance : IsTrans Alert rStart := ⟨fun _ _ _ h h2 => le_trans h h2⟩

/-! ### scoring.py -/

/-- `get_base_score` (scoring.py): `BASE_SCORES.get(severity, 25)`. -/
def get_base_score (severity : String) : Nat :=
  if severity = "low" then 25
  else if severity = "medium" then 50
  else if severity = "high" then 75
  else if severity = "critical" then 95
  else 25

/-- `severity_from_score` (scoring.py). -/
def severity_from_score (score : Nat) : String :=
  if score ≥ 90 then "critical"
  else if score ≥ 70 then "high"
  else if score ≥ 40 then "medium"
  else "low"

/-- The loop body of `calculate_case_score` over individual alerts: the first
alert qualifying under either +10 rule contributes 10 and `break` leaves the
loop, so at most one +10 is ever added. -/
def score_bonus_loop : List Alert → Nat
  | [] => 0
  | a :: rest =>
    if a.detector = "fail_success_chain" ∧ 10 ≤ a.evidence.failure_count.getD 0 then 10
    else if a.detector = "new_device_ua" ∧ a.evidence.is_new_device.getD false = true
        ∧ a.evidence.is_new_country.getD false = true then 10
    else score_bonus_loop rest

/-- `max(get_base_score(a.severity) for a in alerts)` over a non-empty list
(the empty case is unreachable behind the early return). -/
def case_base_score : List Alert → Nat
  | [] => 0
  | a :: rest => rest.foldl (fun m b => max m (get_base_score b.severity)) (get_base_score a.severity)

/-- `calculate_case_score` (scoring.py). -/
def calculate_case_score : List Alert → Nat × String
  | [] => (0, "low")
  | a :: rest =>
    let alerts := a :: rest
    let base := case_base_score alerts
    let mdBonus := if 1 < (keysInOrder Alert.detector alerts).length then 15 else 0
    let bonus := mdBonus + score_bonus_loop alerts
    let final := min 100 (base + bonus)
    (final, severity_from_score final)

/-- Does an alert qualify for the +10 case bonus, under either the
fail-success-chain rule or the new-device rule. -/
def bonus_qualifies (a : Alert) : Bool :=
  (a.detector = "fail_success_chain" ∧ 10 ≤ a.evidence.failure_count.getD 0)
    ∨ (a.detector = "new_device_ua" ∧ a.evidence.is_new_device.getD false = true
        ∧ a.evidence.is_new_country.getD false = true)

/-- The bonus formula as the claim states it (written from the words of the
spec, for comparison with `calculate_case_score`): +15 for multiple detector
types, plus an independent +10 for a qualifying fail-success-chain alert,
plus an independent +10 for a qualifying new-device alert. -/
def spec_claimed_bonus (alerts : List Alert) : Nat :=
  (if 1 < (keysInOrder Alert.detector alerts).length then 15 else 0)
    + (if alerts.any (fun a => a.detector = "fail_success_chain"
          ∧ 10 ≤ a.evidence.failure_count.getD 0) then 10 else 0)
    + (if alerts.any (fun a => a.detector = "new_device_ua"
          ∧ a.evidence.is_new_device.getD false = true
          ∧ a.evidence.is_new_country.getD false = true) then 10 else 0)

/-- The case score as the claim states it: `min(100, base + independent bonuses)`. -/
def spec_claimed_case_score (alerts : List Alert) : Nat :=
  min 100 (case_base_score alerts + spec_claimed_bonus alerts)

/-- The bonus actually computed by the code: +15 for multiple detector types,
plus a single +10 awarded to the first qualifying alert under either rule
(the two +10 bonuses are mutually exclusive because of the `break`). -/
def amended_bonus (alerts : List Alert) : Nat :=
  (if 1 < (keysInOrder Alert.detector alerts).length then 15 else 0)
    + (if alerts.any bonus_qualifies then 10 else 0)

lemma score_bonus_loop_eq_any (alerts : List Alert) :
    score_bonus_loop alerts = if alerts.any bonus_qualifies then 10 else 0 := by
  induction alerts with
  | nil => simp [score_bonus_loop]
  | cons a rest ih =>
    simp only [score_bonus_loop, List.any_cons, bonus_qualifies]
    by_cases h1 : a.detector = "fail_success_chain" ∧ 10 ≤ a.evidence.failure_count.getD 0
    · simp [h1]
    · by_cases h2 : a.detector = "new_device_ua" ∧ a.evidence.is_new_device.getD false = true
          ∧ a.evidence.is_new_country.getD false = true
      · simp [h1, h2]
      · simp [h1, h2, ih]

/-- First alert of the C1 counterexample: a fail-success-chain alert with ten
failures recorded in evidence. -/
def cexAlertFsc : Alert :=
  { alert_id := "A1", detector := "fail_success_chain", ts_start := 0, ts_end := 0,
    user := "alice", severity := "low", score := 25, title := "t",
    evidence := { failure_count := some 10 } }

/-- Second alert of the C1 counterexample: a new-device alert from a new
device and a new country. -/
def cexAlertNdu : Alert :=
  { alert_id := "A2", detector := "new_device_ua", ts_start := 0, ts_end := 0,
    user := "alice", severity := "low", score := 25, title := "t",
    evidence := { is_new_device := some true, is_new_country := some true } }

/-- C1, counterexample: on a case holding both a qualifying
fail-success-chain alert and a qualifying new-device alert from two distinct
detectors, the code awards 15 + 10 = 25 bonus points (score 50), not the
15 + 10 + 10 = 35 (score 60) that the claimed independent-bonus formula
yields: the two +10 bonuses are not independent. -/
theorem case_score_bonuses_not_independent_cex :
    calculate_case_score [cexAlertFsc, cexAlertNdu] = (50, "medium")
      ∧ spec_claimed_case_score [cexAlertFsc, cexAlertNdu] = 60 := by
  constructor <;> rfl

/-- C1 (amended): for every non-empty alert list, `calculate_case_score`
returns `min(100, base + bonus)` with base the maximum per-severity base
score, and bonus = +15 when at least two distinct detector types are present
plus at most one +10, awarded when some alert qualifies under either the
fail-success-chain rule (failure_count at least 10) or the new-device rule
(new device and new country); the two +10 bonuses are mutually exclusive, so
the combined case of the claim receives base + 25, capped at 100. -/
theorem case_score_amended (alerts : List Alert) (h : alerts ≠ []) :
    calculate_case_score alerts =
      (min 100 (case_base_score alerts + amended_bonus alerts),
        severity_from_score (min 100 (case_base_score alerts + amended_bonus alerts))) := by
  match alerts, h with
  | a :: rest, _ =>
    simp only [calculate_case_score, amended_bonus, score_bonus_loop_eq_any]

/-- C1 witness: the amended score formula evaluated on the concrete
two-alert case of the counterexample. -/
theorem case_score_amended_witness :
    calculate_case_score [cexAlertFsc, cexAlertNdu] =
      (min 100 (case_base_score [cexAlertFsc, cexAlertNdu] + amended_bonus [cexAlertFsc, cexAlertNdu]),
        severity_from_score (min 100 (case_base_score [cexAlertFsc, cexAlertNdu]
          + amended_bonus [cexAlertFsc, cexAlertNdu]))) :=
  case_score_amended [cexAlertFsc, cexAlertNdu] (by decide)

/-! ### detectors/fail_success_chain.py -/

/-- The backward scan of `detect_fail_success_chain`: walk the events
preceding the success in reverse order (nearest first), stop at the first
event older than the window start, collect the failures. `prevRev` is the
prefix of the sorted user events before the success, reversed. -/
def scanBack (windowStart : Int) : List AuthEvent → List AuthEvent
  | [] => []
  | e :: rest =>
    if e.ts < windowStart then []
    else (if e.result = "failure" then [e] else []) ++ scanBack windowStart rest

/-- The per-IP failure tally `ip_counts` (a `defaultdict(int)` incremented
once per failure): keys in first-occurrence order, each value the number of
failures from that IP. -/
def ip_counts (failures : List AuthEvent) : List (String × Nat) :=
  (keysInOrder AuthEvent.source_ip failures).map
    (fun ip => (ip, (failures.filter (fun f => f.source_ip = ip)).length))

/-- `max(ip_counts.values()) if ip_counts else 0`. -/
def max_same_ip_of (counts : List (String × Nat)) : Nat :=
  counts.foldl (fun m p => max m p.2) 0

/-- `_create_alert` (fail_success_chain.py). Callers always pass a non-empty
failure list (the python `failures_sorted[0]` indexing would raise
otherwise); the head default of the sorted failure list is the success
event, which is never used on those calls. -/
def fsc_create_alert (user : String) (failures : List AuthEvent)
    (success : AuthEvent) (counts : List (String × Nat))
    (attack_type : String) (threshold_used : Int) : Alert :=
  let total_failures := failures.length
  let distinct_ips := counts.length
  let max_same_ip := max_same_ip_of counts
  let severity :=
    if attack_type = "same_ip" ∧ 12 ≤ max_same_ip then "high"
    else if threshold_used ≤ (total_failures : Int) then "medium"
    else "low"
  let score0 := get_base_score severity
  let score := if 10 ≤ total_failures then min 100 (score0 + 10) else score0
  let failures_sorted := List.insertionSort rTs failures
  let first_failure := failures_sorted.headD success
  let all_ips := (counts.map Prod.fst ++ [success.source_ip]).foldl insertNew []
  let device_ids := ((failures.map AuthEvent.device_id
      ++ [success.device_id]).foldl (fun acc d => match d with
        | some s => insertNew acc s
        | none => acc) [])
  let countries := ((failures.map AuthEvent.country
      ++ [success.country]).foldl (fun acc c => match c with
        | some s => insertNew acc s
        | none => acc) [])
  { alert_id := "FSC-",
    detector := "fail_success_chain",
    ts_start := first_failure.ts,
    ts_end := success.ts,
    user := user,
    severity := severity,
    score := score,
    title := "Brute Force / Credential Stuffing Detected",
    evidence :=
      { ips := all_ips,
        device_ids := device_ids,
        countries := countries,
        failure_count := some total_failures,
        distinct_ips := some distinct_ips,
        max_same_ip_failures := some max_same_ip,
        attack_type := some attack_type,
        threshold_used := some threshold_used },
    mitre := ["T1110", "T1110.001", "T1110.004"],
    related_event_ids := failures.map AuthEvent.event_id ++ [success.event_id] }

/-- The body of `detect_fail_success_chain` run at one success event:
collect the trailing-window failures, apply the trigger policy. -/
def fsc_success_step (window_minutes : Int) (min_failures_same_ip min_failures_multi_ip : Int)
    (user : String) (prevRev : List AuthEvent) (e : AuthEvent) : Option Alert :=
  let failures := scanBack (e.ts - 60 * window_minutes) prevRev
  if failures = [] then none
  else
    let counts := ip_counts failures
    if min_failures_same_ip ≤ (max_same_ip_of counts : Int) then
      some (fsc_create_alert user failures e counts "same_ip" min_failures_same_ip)
    else if min_failures_multi_ip ≤ (failures.length : Int) then
      some (fsc_create_alert user failures e counts "multi_ip" min_failures_multi_ip)
    else none

/-- The scan of one user's time-sorted events: successes are checked against
the reversed prefix of already-walked events, every event joins that prefix. -/
def fsc_scan (wm sip mip : Int) (user : String) :
    List AuthEvent → List AuthEvent → List Alert
  | _, [] => []
  | prevRev, e :: rest =>
    (if e.result = "success" then (fsc_success_step wm sip mip user prevRev e).toList else [])
      ++ fsc_scan wm sip mip user (e :: prevRev) rest

/-- `detect_fail_success_chain` (fail_success_chain.py): group by user, sort
each group by timestamp, run the success scan, concatenate. -/
def detect_fail_success_chain (events : List AuthEvent)
    (window_minutes : Int := 20) (min_failures_same_ip : Int := 8)
    (min_failures_multi_ip : Int := 15) : List Alert :=
  ((groupByKey AuthEvent.user events).map
    (fun p => fsc_scan window_minutes min_failures_same_ip min_failures_multi_ip p.1
      [] (List.insertionSort rTs p.2))).flatten

/-- A fixed default alert, used only to take the head of lists proved
non-empty. -/
def dummyAlert : Alert :=
  { alert_id := "", detector := "", ts_start := 0, ts_end := 0, user := "",
    severity := "low", score := 0, title := "", evidence := {} }

/-- Failure event number n of the C2 scenario: from IP 10.0.0.1 at minute n-1. -/
def mkFail (n : Nat) : AuthEvent :=
  { event_id := "f" ++ toString n, user := "bob", ts := (60 * n : Int) - 60,
    source_ip := "10.0.0.1", result := "failure" }

/-- The C2 scenario: 10 failures from IP 10.0.0.1 within 11 minutes followed
by a success from the same IP. -/
def exC2events : List AuthEvent :=
  (List.range 10).map (fun n => mkFail (n + 1)) ++
    [{ event_id := "s1", user := "bob", ts := 660, source_ip := "10.0.0.1",
       result := "success" }]

lemma mem_groupByKey {key : α → String} {l : List α} {p : String × List α}
    (h : p ∈ groupByKey key l) : p.2 = l.filter (fun x => key x = p.1) := by
  rcases List.mem_map.mp h with ⟨u, _, rfl⟩
  rfl

lemma mem_fsc_scan {wm sip mip : Int} {u : String} {a : Alert} :
    ∀ {l prevRev : List AuthEvent}, a ∈ fsc_scan wm sip mip u prevRev l →
      ∃ l1 e l2, l = l1 ++ e :: l2 ∧ e.result = "success"
        ∧ fsc_success_step wm sip mip u (l1.reverse ++ prevRev) e = some a := by
  intro l
  induction l with
  | nil => intro prevRev h; simp [fsc_scan] at h
  | cons e rest ih =>
    intro prevRev h
    simp only [fsc_scan, List.mem_append] at h
    rcases h with h | h
    · refine ⟨[], e, rest, rfl, ?_, ?_⟩
      · by_cases hs : e.result = "success"
        · exact hs
        · simp [hs] at h
      · by_cases hs : e.result = "success"
        · simp only [hs, if_pos] at h
          simpa [Option.mem_toList] using h
        · simp [hs] at h
    · rcases ih h with ⟨l1, e2, l2, hsplit, hsucc, hstep⟩
      refine ⟨e :: l1, e2, l2, by simp [hsplit], hsucc, ?_⟩
      simpa [List.reverse_cons, List.append_assoc] using hstep

lemma mem_detect_fsc {events : List AuthEvent} {wm sip mip : Int} {a : Alert}
    (h : a ∈ detect_fail_success_chain events wm sip mip) :
    ∃ u l1 e l2,
      List.insertionSort rTs (events.filter (fun x => x.user = u)) = l1 ++ e :: l2
        ∧ e.result = "success"
        ∧ fsc_success_step wm sip mip u l1.reverse e = some a := by
  simp only [detect_fail_success_chain, List.mem_flatten, List.mem_map] at h
  rcases h with ⟨bucket, ⟨p, hp, rfl⟩, hmem⟩
  rcases mem_fsc_scan hmem with ⟨l1, e, l2, hsplit, hsucc, hstep⟩
  refine ⟨p.1, l1, e, l2, ?_, hsucc, ?_⟩
  · rw [← mem_groupByKey hp]; exact hsplit
  · simpa using hstep

lemma fsc_success_step_none_iff (wm sip mip : Int) (u : String)
    (prevRev : List AuthEvent) (e : AuthEvent) (F : List AuthEvent)
    (hF : F = scanBack (e.ts - 60 * wm) prevRev) :
    fsc_success_step wm sip mip u prevRev e = none ↔
      (F = [] ∨ ((max_same_ip_of (ip_counts F) : Int) < sip ∧ ((F.length : Int) < mip))) := by
  subst hF
  simp only [fsc_success_step]
  split
  · simp_all
  · split
    · simp_all
    · split
      · simp_all
      · simp_all [not_le]

lemma fsc_success_step_some (wm sip mip : Int) (u : String)
    (prevRev : List AuthEvent) (e : AuthEvent) (a : Alert) (F : List AuthEvent)
    (hF : F = scanBack (e.ts - 60 * wm) prevRev)
    (h : fsc_success_step wm sip mip u prevRev e = some a) :
    F ≠ []
      ∧ a.evidence.attack_type =
          some (if sip ≤ (max_same_ip_of (ip_counts F) : Int) then "same_ip" else "multi_ip")
      ∧ (¬ sip ≤ (max_same_ip_of (ip_counts F) : Int) → mip ≤ (F.length : Int))
      ∧ a.evidence.failure_count = some F.length
      ∧ a.related_event_ids = F.map AuthEvent.event_id ++ [e.event_id] := by
  subst hF
  simp only [fsc_success_step] at h
  split at h
  · simp at h
  · rename_i hne
    split at h
    · rename_i hsip
      cases h
      refine ⟨hne, ?_, ?_, rfl, rfl⟩
      · simp [fsc_create_alert, hsip]
      · intro hc; exact absurd hsip hc
    · rename_i hsip
      split at h
      · rename_i hmip
        cases h
        refine ⟨hne, ?_, fun _ => hmip, rfl, rfl⟩
        simp [fsc_create_alert, hsip]
      · simp at h

/-- C2: a success event of `detect_fail_success_chain` triggers exactly by
the documented policy over the failures `F` in the trailing window: no alert
when `F` is empty or when both thresholds miss; otherwise one alert with
attack_type same_ip when the largest per-IP failure count reaches
`min_failures_same_ip`, else multi_ip (which requires the total failure
count to reach `min_failures_multi_ip`), with `failure_count = F.length` and
`related_event_ids` exactly the failures plus the success. Every alert of
the detector arises this way from a success of the sorted per-user event
list, and the 10-failures-then-success scenario yields exactly one same_ip
alert carrying all 10 failure ids plus the success id. -/
theorem fsc_trigger_policy :
    (∀ (wm sip mip : Int) (u : String) (prevRev : List AuthEvent) (e : AuthEvent)
        (F : List AuthEvent), F = scanBack (e.ts - 60 * wm) prevRev →
      (fsc_success_step wm sip mip u prevRev e = none ↔
        (F = [] ∨ ((max_same_ip_of (ip_counts F) : Int) < sip ∧ ((F.length : Int) < mip))))
      ∧ (∀ a, fsc_success_step wm sip mip u prevRev e = some a →
          a.evidence.attack_type =
              some (if sip ≤ (max_same_ip_of (ip_counts F) : Int) then "same_ip" else "multi_ip")
            ∧ (¬ sip ≤ (max_same_ip_of (ip_counts F) : Int) → mip ≤ (F.length : Int))
            ∧ a.evidence.failure_count = some F.length
            ∧ a.related_event_ids = F.map AuthEvent.event_id ++ [e.event_id]))
    ∧ (∀ (events : List AuthEvent) (wm sip mip : Int) (a : Alert),
        a ∈ detect_fail_success_chain events wm sip mip →
        ∃ u l1 e l2,
          List.insertionSort rTs (events.filter (fun x => x.user = u)) = l1 ++ e :: l2
            ∧ e.result = "success"
            ∧ fsc_success_step wm sip mip u l1.reverse e = some a)
    ∧ (detect_fail_success_chain exC2events 20 8 15).map
          (fun a => (a.evidence.attack_type, a.evidence.failure_count, a.related_event_ids))
        = [(some "same_ip", some 10,
            ["f10", "f9", "f8", "f7", "f6", "f5", "f4", "f3", "f2", "f1", "s1"])] := by
  refine ⟨fun wm sip mip u prevRev e F hF => ⟨?_, ?_⟩, ?_, ?_⟩
  · exact fsc_success_step_none_iff wm sip mip u prevRev e F hF
  · intro a ha
    exact (fsc_success_step_some wm sip mip u prevRev e a F hF ha).2
  · intro events wm sip mip a ha
    exact mem_detect_fsc ha
  · decide

/-- C2 witness: the membership conjunct of the policy theorem applied to the
one alert of the concrete 10-failures scenario. -/
theorem fsc_trigger_policy_witness :
    ∃ u l1 e l2,
      List.insertionSort rTs (exC2events.filter (fun x => x.user = u)) = l1 ++ e :: l2
        ∧ e.result = "success"
        ∧ fsc_success_step 20 8 15 u l1.reverse e =
            some ((detect_fail_success_chain exC2events 20 8 15).headD dummyAlert) :=
  fsc_trigger_policy.2.1 exC2events 20 8 15
    ((detect_fail_success_chain exC2events 20 8 15).headD dummyAlert) (by decide)

lemma max_same_ip_of_le {counts : List (String × Nat)} {L : Nat}
    (h : ∀ p ∈ counts, p.2 ≤ L) : max_same_ip_of counts ≤ L := by
  suffices hgen : ∀ acc, acc ≤ L → counts.foldl (fun m p => max m p.2) acc ≤ L from
    hgen 0 (Nat.zero_le L)
  induction counts with
  | nil => intro acc hacc; simpa using hacc
  | cons p rest ih =>
    intro acc hacc
    simp only [List.foldl_cons]
    exact ih (fun q hq => h q (List.mem_cons_of_mem p hq)) _
      (max_le hacc (h p (List.mem_cons_self p rest)))

lemma max_same_ip_le_total (failures : List AuthEvent) :
    max_same_ip_of (ip_counts failures) ≤ failures.length := by
  apply max_same_ip_of_le
  intro p hp
  rcases List.mem_map.mp hp with ⟨ip, _, rfl⟩
  exact List.length_filter_le _ _

lemma fsc_step_severity {wm sip mip : Int} {u : String}
    {prevRev : List AuthEvent} {e : AuthEvent} {a : Alert}
    (h : fsc_success_step wm sip mip u prevRev e = some a) :
    a.severity = "high" ∨ a.severity = "medium" := by
  simp only [fsc_success_step] at h
  split at h
  · simp at h
  · split at h
    · rename_i hsip
      cases h
      simp only [fsc_create_alert]
      by_cases h12 : 12 ≤ max_same_ip_of (ip_counts (scanBack (e.ts - 60 * wm) prevRev))
      · left; simp [h12]
      · right
        have htot : sip ≤ ((scanBack (e.ts - 60 * wm) prevRev).length : Int) :=
          le_trans hsip (by exact_mod_cast max_same_ip_le_total _)
        simp [h12, htot]
    · split at h
      · rename_i hmip
        cases h
        simp only [fsc_create_alert]
        right; simp [hmip]
      · simp at h

/-- C5: every alert emitted by `detect_fail_success_chain`, for every input
and every threshold setting, has severity high or medium: the low branch of
the severity policy is unreachable, because a same_ip trigger forces the
per-IP maximum (and hence the total) past the same-IP threshold that was
used, and a multi_ip trigger forces the total past the multi-IP threshold
that was used. -/
theorem fsc_severity_never_low (events : List AuthEvent) (wm sip mip : Int)
    (a : Alert) (h : a ∈ detect_fail_success_chain events wm sip mip) :
    a.severity = "high" ∨ a.severity = "medium" := by
  rcases mem_detect_fsc h with ⟨u, l1, e, l2, _, _, hstep⟩
  exact fsc_step_severity hstep

/-- C5 witness: the severity bound evaluated on the alert of the concrete
10-failures scenario. -/
theorem fsc_severity_never_low_witness :
    ((detect_fail_success_chain exC2events 20 8 15).headD dummyAlert).severity = "high"
      ∨ ((detect_fail_success_chain exC2events 20 8 15).headD dummyAlert).severity = "medium" :=
  fsc_severity_never_low exC2events 20 8 15
    ((detect_fail_success_chain exC2events 20 8 15).headD dummyAlert) (by decide)

/-- Division of rationals written with kernel-computable primitives
(`Rat.div` is irreducible); `qdiv_eq_div` shows it is division. -/
def qdiv (a b : ℚ) : ℚ := Rat.divInt (a.num * b.den) (a.den * b.num)

lemma qdiv_eq_div (a b : ℚ) : qdiv a b = a / b := by
  rcases eq_or_ne b 0 with rfl | hb
  · simp [qdiv]
  · have ha : ((a.den : ℚ)) ≠ 0 := Nat.cast_ne_zero.mpr a.den_nz
    have hbd : ((b.den : ℚ)) ≠ 0 := Nat.cast_ne_zero.mpr b.den_nz
    have hbn : ((b.num : ℚ)) ≠ 0 := by exact_mod_cast Rat.num_ne_zero.mpr hb
    have h1 := Rat.num_div_den a
    have h2 := Rat.num_div_den b
    rw [div_eq_iff ha] at h1
    rw [div_eq_iff hbd] at h2
    rw [qdiv, Rat.divInt_eq_div]
    push_cast
    rw [div_eq_div_iff (mul_ne_zero ha hbn) hb, h1, h2]
    ring

/-! ### detectors/impossible_travel.py -/

/-- The local `score_map` dict shared by the detectors; only ever indexed
with one of its four keys. -/
def score_map (severity : String) : Nat :=
  if severity = "low" then 25
  else if severity = "medium" then 50
  else if severity = "high" then 75
  else 95

/-- `_create_alert` (impossible_travel.py). The rounded display copies of
distance, hours and speed in the evidence dict are omitted. -/
def it_create_alert (e1 e2 : AuthEvent) (distance_km hours_between speed_kmh : ℚ) : Alert :=
  let severity :=
    if 2000 < speed_kmh ∧ hours_between < 2 then "critical"
    else if 900 < speed_kmh ∧ hours_between < 6 then "high"
    else "medium"
  let score := score_map severity
  let ips := [e1.source_ip, e2.source_ip].foldl insertNew []
  let device_ids := ([e1.device_id, e2.device_id].foldl (fun acc d => match d with
    | some s => insertNew acc s
    | none => acc) [])
  let countries := ([e1.country, e2.country].foldl (fun acc c => match c with
    | some s => insertNew acc s
    | none => acc) [])
  { alert_id := "IT-",
    detector := "impossible_travel",
    ts_start := min e1.ts e2.ts,
    ts_end := max e1.ts e2.ts,
    user := e1.user,
    severity := severity,
    score := score,
    title := "Impossible Travel Detected",
    evidence := { ips := ips, device_ids := device_ids, countries := countries },
    mitre := ["T1078", "T1078.004"],
    related_event_ids := [e1.event_id, e2.event_id] }

/-- The body of `detect_impossible_travel` at one consecutive pair of a
user's sorted geo-success events. `dist` is the external `haversine`
distance (km), applied to the two coordinate pairs; `time_delta` is
`(e2.ts - e1.ts).total_seconds() / 3600` as an exact rational
(`Rat.divInt_eq_div`); the speed division is `qdiv` (`qdiv_eq_div`). -/
def it_pair_alert (dist : ℚ → ℚ → ℚ → ℚ → ℚ) (speed_threshold_kmh max_hours : ℚ)
    (e1 e2 : AuthEvent) : Option Alert :=
  let time_delta := Rat.divInt (e2.ts - e1.ts) 3600
  if max_hours < time_delta ∨ time_delta ≤ 0 then none
  else
    let distance_km := dist (e1.lat.getD 0) (e1.lon.getD 0) (e2.lat.getD 0) (e2.lon.getD 0)
    let speed_kmh := qdiv distance_km time_delta
    if speed_threshold_kmh < speed_kmh then
      some (it_create_alert e1 e2 distance_km time_delta speed_kmh)
    else none

/-- The loop over consecutive pairs `(i, i+1)` of one user's sorted events. -/
def it_pairs (dist : ℚ → ℚ → ℚ → ℚ → ℚ) (th mh : ℚ) : List AuthEvent → List Alert
  | [] => []
  | [_] => []
  | e1 :: e2 :: rest =>
    (it_pair_alert dist th mh e1 e2).toList ++ it_pairs dist th mh (e2 :: rest)

/-- The filter of `detect_impossible_travel`: successful events carrying
both coordinates. -/
def geoSuccess (e : AuthEvent) : Bool :=
  e.result = "success" ∧ e.lat.isSome ∧ e.lon.isSome

/-- `detect_impossible_travel` (impossible_travel.py): filter to geo-located
successes, group by user, sort each group and compare consecutive pairs. -/
def detect_impossible_travel (dist : ℚ → ℚ → ℚ → ℚ → ℚ) (events : List AuthEvent)
    (speed_threshold_kmh : ℚ := 900) (max_hours : ℚ := 6) : List Alert :=
  ((groupByKey AuthEvent.user (events.filter geoSuccess)).map
    (fun p => it_pairs dist speed_threshold_kmh max_hours (List.insertionSort rTs p.2))).flatten

lemma mem_it_pairs {dist : ℚ → ℚ → ℚ → ℚ → ℚ} {th mh : ℚ} {a : Alert} :
    ∀ {l : List AuthEvent}, a ∈ it_pairs dist th mh l →
      ∃ l1 e1 e2 l2, l = l1 ++ e1 :: e2 :: l2 ∧ it_pair_alert dist th mh e1 e2 = some a := by
  intro l
  induction l with
  | nil => intro h; simp [it_pairs] at h
  | cons e1 rest ih =>
    intro h
    match rest, h with
    | [], h => simp [it_pairs] at h
    | e2 :: rest2, h =>
      simp only [it_pairs, List.mem_append] at h
      rcases h with h | h
      · exact ⟨[], e1, e2, rest2, rfl, by simpa [Option.mem_toList] using h⟩
      · rcases ih h with ⟨l1, f1, f2, l2, hsplit, halert⟩
        exact ⟨e1 :: l1, f1, f2, l2, by simp [hsplit], halert⟩

lemma mem_detect_it {dist : ℚ → ℚ → ℚ → ℚ → ℚ} {events : List AuthEvent}
    {th mh : ℚ} {a : Alert} (h : a ∈ detect_impossible_travel dist events th mh) :
    ∃ u l1 e1 e2 l2,
      List.insertionSort rTs ((events.filter geoSuccess).filter (fun x => x.user = u))
          = l1 ++ e1 :: e2 :: l2
        ∧ it_pair_alert dist th mh e1 e2 = some a := by
  simp only [detect_impossible_travel, List.mem_flatten, List.mem_map] at h
  rcases h with ⟨bucket, ⟨p, hp, rfl⟩, hmem⟩
  rcases mem_it_pairs hmem with ⟨l1, e1, e2, l2, hsplit, halert⟩
  refine ⟨p.1, l1, e1, e2, l2, ?_, halert⟩
  rw [← mem_groupByKey hp]
  exact hsplit

lemma it_pair_alert_some {dist : ℚ → ℚ → ℚ → ℚ → ℚ} {th mh : ℚ}
    {e1 e2 : AuthEvent} {a : Alert}
    (h : it_pair_alert dist th mh e1 e2 = some a) :
    0 < ((e2.ts - e1.ts : Int) : ℚ) / 3600
      ∧ ((e2.ts - e1.ts : Int) : ℚ) / 3600 ≤ mh
      ∧ th < dist (e1.lat.getD 0) (e1.lon.getD 0) (e2.lat.getD 0) (e2.lon.getD 0)
          / (((e2.ts - e1.ts : Int) : ℚ) / 3600)
      ∧ a = it_create_alert e1 e2
          (dist (e1.lat.getD 0) (e1.lon.getD 0) (e2.lat.getD 0) (e2.lon.getD 0))
          (Rat.divInt (e2.ts - e1.ts) 3600)
          (qdiv (dist (e1.lat.getD 0) (e1.lon.getD 0) (e2.lat.getD 0) (e2.lon.getD 0))
            (Rat.divInt (e2.ts - e1.ts) 3600)) := by
  have hdiv : (Rat.divInt (e2.ts - e1.ts) 3600) = ((e2.ts - e1.ts : Int) : ℚ) / 3600 := by
    rw [Rat.divInt_eq_div]; norm_num
  simp only [it_pair_alert] at h
  split at h
  · simp at h
  · rename_i hcond
    push_neg at hcond
    split at h
    · rename_i hspeed
      cases h
      refine ⟨?_, ?_, ?_, rfl⟩
      · rw [← hdiv]; exact hcond.2
      · rw [← hdiv]; exact hcond.1
      · rw [← hdiv, ← qdiv_eq_div]; exact hspeed
    · simp at h

def itDist : ℚ → ℚ → ℚ → ℚ → ℚ := fun _ _ _ _ => 10000

def exITevents : List AuthEvent :=
  [{ event_id := "g1", user := "carol", ts := 0, source_ip := "1.1.1.1",
     lat := some 40, lon := some (-74), result := "success" },
   { event_id := "g2", user := "carol", ts := 3600, source_ip := "2.2.2.2",
     lat := some 35, lon := some 139, result := "success" }]


/-- C4: for every event list, distance function, speed threshold and
max_hours, a consecutive pair whose elapsed time in hours is nonpositive or
exceeds max_hours never yields an alert, and every alert of
`detect_impossible_travel` comes from a consecutive pair of the sorted
geo-located success events of one user with elapsed hours strictly positive,
at most max_hours, and required speed strictly above the threshold. -/
theorem it_window_guard :
    (∀ (dist : ℚ → ℚ → ℚ → ℚ → ℚ) (th mh : ℚ) (e1 e2 : AuthEvent),
      (((e2.ts - e1.ts : Int) : ℚ) / 3600 ≤ 0 ∨ mh < ((e2.ts - e1.ts : Int) : ℚ) / 3600) →
        it_pair_alert dist th mh e1 e2 = none)
    ∧ (∀ (dist : ℚ → ℚ → ℚ → ℚ → ℚ) (events : List AuthEvent) (th mh : ℚ) (a : Alert),
        a ∈ detect_impossible_travel dist events th mh →
        ∃ u l1 e1 e2 l2,
          List.insertionSort rTs ((events.filter geoSuccess).filter (fun x => x.user = u))
              = l1 ++ e1 :: e2 :: l2
            ∧ 0 < ((e2.ts - e1.ts : Int) : ℚ) / 3600
            ∧ ((e2.ts - e1.ts : Int) : ℚ) / 3600 ≤ mh
            ∧ th < dist (e1.lat.getD 0) (e1.lon.getD 0) (e2.lat.getD 0) (e2.lon.getD 0)
                / (((e2.ts - e1.ts : Int) : ℚ) / 3600)
            ∧ a.related_event_ids = [e1.event_id, e2.event_id]) := by
  constructor
  · intro dist th mh e1 e2 hout
    have hdiv : (Rat.divInt (e2.ts - e1.ts) 3600) = ((e2.ts - e1.ts : Int) : ℚ) / 3600 := by
      rw [Rat.divInt_eq_div]; norm_num
    simp only [it_pair_alert]
    rw [if_pos]
    rw [hdiv]
    tauto
  · intro dist events th mh a ha
    rcases mem_detect_it ha with ⟨u, l1, e1, e2, l2, hsplit, halert⟩
    rcases it_pair_alert_some halert with ⟨h1, h2, h3, hshape⟩
    exact ⟨u, l1, e1, e2, l2, hsplit, h1, h2, h3, by rw [hshape]; rfl⟩

/-- C4 witness: the membership conjunct applied to the one alert of a
concrete two-event impossible-travel scenario. -/
theorem it_window_guard_witness :
    ∃ u l1 e1 e2 l2,
      List.insertionSort rTs ((exITevents.filter geoSuccess).filter (fun x => x.user = u))
          = l1 ++ e1 :: e2 :: l2
        ∧ 0 < ((e2.ts - e1.ts : Int) : ℚ) / 3600
        ∧ ((e2.ts - e1.ts : Int) : ℚ) / 3600 ≤ 6
        ∧ 900 < itDist (e1.lat.getD 0) (e1.lon.getD 0) (e2.lat.getD 0) (e2.lon.getD 0)
            / (((e2.ts - e1.ts : Int) : ℚ) / 3600)
        ∧ ((detect_impossible_travel itDist exITevents 900 6).headD dummyAlert).related_event_ids
            = [e1.event_id, e2.event_id] :=
  it_window_guard.2 itDist exITevents 900 6
    ((detect_impossible_travel itDist exITevents 900 6).headD dummyAlert) (by decide)

/-! ### detectors/new_device_ua.py -/

/-- Case-insensitive substring test `needle in haystack` used by the
fallback user-agent classifier (callers lower-case first). -/
def containsSub (needle hay : String) : Bool :=
  decide (needle.toList <:+: hay.toList)

/-- Python `str.lower`, written over the character list (`String.map` does
not reduce in the kernel). -/
def strLower (s : String) : String := ⟨s.data.map Char.toLower⟩

/-- `_get_ua_family` (new_device_ua.py), the in-repo fallback classifier
(the structured `user_agents` parse is an optional external library). A
missing or empty user agent is "Unknown". -/
def get_ua_family (user_agent : Option String) : String :=
  match user_agent with
  | none => "Unknown"
  | some s =>
    if s = "" then "Unknown"
    else
      let ua := strLower s
      let browser :=
        if containsSub "chrome" ua ∧ containsSub "safari" ua ∧ ¬ containsSub "edg" ua then "Chrome"
        else if containsSub "firefox" ua then "Firefox"
        else if containsSub "safari" ua ∧ ¬ containsSub "chrome" ua then "Safari"
        else if containsSub "edg" ua then "Edge"
        else "Other"
      let os :=
        if containsSub "windows" ua then "Windows"
        else if containsSub "mac" ua ∨ containsSub "iphone" ua ∨ containsSub "ipad" ua then "Apple"
        else if containsSub "android" ua then "Android"
        else if containsSub "linux" ua then "Linux"
        else "Other"
      browser ++ " on " ++ os

/-- `DeviceBaseline` (new_device_ua.py): per-user accumulated sets and the
last seen timestamp. -/
structure DeviceBaseline where
  device_ids : List String
  ua_families : List String
  countries : List String
  last_seen : Option Int
deriving DecidableEq, Repr

/-- The baseline a user starts with: all sets empty. -/
def emptyBaseline : DeviceBaseline := ⟨[], [], [], none⟩

/-- Python truthiness of `event.device_id`: present and non-empty. -/
def deviceTruthy (e : AuthEvent) : Bool :=
  match e.device_id with
  | some d => d ≠ ""
  | none => false

/-- `is_new_device` of `_check_for_anomaly`: `event.device_id and
event.device_id not in baseline.device_ids`. -/
def is_new_device_of (e : AuthEvent) (baseline : DeviceBaseline) : Bool :=
  deviceTruthy e && decide ((e.device_id.getD "") ∉ baseline.device_ids)

/-- `is_new_ua_family` of `_check_for_anomaly`: a truthy user agent, a
non-empty known-family set, and a truthy computed family not among them. -/
def is_new_ua_family_of (e : AuthEvent) (baseline : DeviceBaseline) : Bool :=
  (match e.user_agent with | some s => s ≠ "" | none => false)
    && !baseline.ua_families.isEmpty
    && (get_ua_family e.user_agent ≠ "")
    && decide (get_ua_family e.user_agent ∉ baseline.ua_families)

/-- `is_new_country` of `_check_for_anomaly`: `event.country is not None`
(note: not truthiness), a non-empty known-country set, and the country not
among them. -/
def is_new_country_of (e : AuthEvent) (baseline : DeviceBaseline) : Bool :=
  e.country.isSome && !baseline.countries.isEmpty
    && decide ((e.country.getD "") ∉ baseline.countries)

/-- `_check_for_anomaly` (new_device_ua.py). -/
def check_for_anomaly (e : AuthEvent) (baseline : DeviceBaseline) (user : String) :
    Option Alert :=
  let is_new_device := is_new_device_of e baseline
  let is_new_ua_family := is_new_ua_family_of e baseline
  let is_new_country := is_new_country_of e baseline
  if !(is_new_device || is_new_ua_family) then none
  else
    let severity := if (is_new_device || is_new_ua_family) && is_new_country then "high" else "medium"
    let score0 := score_map severity
    let score := if is_new_device && is_new_country then min 100 (score0 + 10) else score0
    some
      { alert_id := "ND-",
        detector := "new_device_ua",
        ts_start := e.ts,
        ts_end := e.ts,
        user := user,
        severity := severity,
        score := score,
        title := "New Device / User-Agent Anomaly",
        evidence :=
          { ips := [e.source_ip],
            device_ids := match e.device_id with
              | some d => if d = "" then [] else [d]
              | none => [],
            countries := match e.country with
              | some c => if c = "" then [] else [c]
              | none => [],
            is_new_device := some is_new_device,
            is_new_ua_family := some is_new_ua_family,
            is_new_country := some is_new_country },
        mitre := ["T1078"],
        related_event_ids := [e.event_id] }

/-- The baseline update of `detect_new_device`: run for every event,
success or failure, but only when the event carries a truthy device_id. -/
def ndu_update (baseline : DeviceBaseline) (e : AuthEvent) : DeviceBaseline :=
  if deviceTruthy e then
    { device_ids := insertNew baseline.device_ids (e.device_id.getD ""),
      ua_families := insertNew baseline.ua_families (get_ua_family e.user_agent),
      countries := match e.country with
        | some c => if c = "" then baseline.countries else insertNew baseline.countries c
        | none => baseline.countries,
      last_seen := some e.ts }
  else baseline

/-- The walk of one user's time-ordered events in `detect_new_device`:
check successes against the pre-event baseline when it already knows a
device, then update the baseline. -/
def ndu_walk (user : String) : DeviceBaseline → List AuthEvent → List Alert
  | _, [] => []
  | b, e :: rest =>
    (if e.result = "success" ∧ b.device_ids ≠ [] then (check_for_anomaly e b user).toList else [])
      ++ ndu_walk user (ndu_update b e) rest

/-- `detect_new_device` (new_device_ua.py): sort all events by time, group
by user, walk each user from an empty baseline. `lookback_days` is accepted
but never used to window the baseline. -/
def detect_new_device (events : List AuthEvent) (lookback_days : Int := 30) : List Alert :=
  ((groupByKey AuthEvent.user (List.insertionSort rTs events)).map
    (fun p => ndu_walk p.1 emptyBaseline p.2)).flatten

/-- First login of the C6 scenario: establishes the baseline device and
country. -/
def exC6first : AuthEvent :=
  { event_id := "n1", user := "erin", ts := 0, source_ip := "3.3.3.3",
    country := some "US", device_id := some "dA",
    user_agent := some "Mozilla Chrome Safari Windows", result := "success" }

/-- Second login of the C6 scenario: new device and new country. -/
def exC6second : AuthEvent :=
  { event_id := "n2", user := "erin", ts := 1000, source_ip := "4.4.4.4",
    country := some "FR", device_id := some "dB",
    user_agent := some "Mozilla Chrome Safari Windows", result := "success" }

/-- The C6 scenario event list. -/
def exC6events : List AuthEvent := [exC6first, exC6second]

/-- C6: `_check_for_anomaly` emits no alert unless the event shows a new
device or a new UA family (a new country alone never triggers), every
emitted alert has severity high when the country is also new and medium
otherwise, and the concrete second-login-from-new-device-and-new-country
scenario yields exactly one alert, of severity high. -/
theorem ndu_check_policy :
    (∀ (e : AuthEvent) (b : DeviceBaseline) (u : String) (a : Alert),
      check_for_anomaly e b u = some a →
        (is_new_device_of e b || is_new_ua_family_of e b) = true
          ∧ a.severity = (if is_new_country_of e b then "high" else "medium"))
    ∧ (∀ (e : AuthEvent) (b : DeviceBaseline) (u : String),
        (is_new_device_of e b || is_new_ua_family_of e b) = false →
          check_for_anomaly e b u = none)
    ∧ (detect_new_device exC6events 30).map (fun a => a.severity) = ["high"] := by
  refine ⟨?_, ?_, by decide⟩
  · intro e b u a h
    simp only [check_for_anomaly] at h
    split at h
    · simp at h
    · rename_i hguard
      have hor : (is_new_device_of e b || is_new_ua_family_of e b) = true := by
        cases hd : is_new_device_of e b <;> cases hf : is_new_ua_family_of e b <;> simp_all
      cases h
      refine ⟨hor, ?_⟩
      simp [hor]
  · intro e b u hfalse
    simp only [check_for_anomaly]
    rw [if_pos]
    simp [hfalse]

/-- C6 witness: the check-policy conjunct applied to the concrete second
login against the baseline learned from the first. -/
theorem ndu_check_policy_witness :
    (is_new_device_of exC6second (ndu_update emptyBaseline exC6first)
        || is_new_ua_family_of exC6second (ndu_update emptyBaseline exC6first)) = true
      ∧ ((check_for_anomaly exC6second (ndu_update emptyBaseline exC6first) "erin").getD
            dummyAlert).severity =
          (if is_new_country_of exC6second (ndu_update emptyBaseline exC6first)
            then "high" else "medium") :=
  ndu_check_policy.1 exC6second (ndu_update emptyBaseline exC6first) "erin"
    ((check_for_anomaly exC6second (ndu_update emptyBaseline exC6first) "erin").getD dummyAlert)
    (by decide)

/-- The C7 counterexample scenario: a failure carrying a device_id, then the
very first success of the user, from a different device. -/
def exC7events : List AuthEvent :=
  [{ event_id := "p1", user := "dave", ts := 0, source_ip := "5.5.5.5",
     country := some "US", device_id := some "d1", result := "failure" },
   { event_id := "p2", user := "dave", ts := 100, source_ip := "5.5.5.6",
     country := some "US", device_id := some "d2", result := "success" }]

/-- C7, counterexample: the only success of `exC7events` is the user's very
first-ever success, yet `detect_new_device` emits an alert for it, because
the preceding failure carried a device_id and populated the baseline: a
first-ever success can produce an alert. -/
theorem first_success_can_alert_cex :
    (exC7events.filter (fun e => e.result = "success")).length = 1
      ∧ (detect_new_device exC7events 30).map (fun a => a.related_event_ids) = [["p2"]] := by
  decide

lemma ndu_walk_empty_baseline (u : String) (b : DeviceBaseline) (e : AuthEvent)
    (rest : List AuthEvent) (hb : b.device_ids = []) :
    ndu_walk u b (e :: rest) = ndu_walk u (ndu_update b e) rest := by
  simp [ndu_walk, hb]

/-- C7 (amended): in the walk of `detect_new_device`, the anomaly check runs
on a success only when the pre-event baseline already knows at least one
device, and it is run against that pre-event baseline; an event with an
empty-device baseline contributes no alert, every event carrying a truthy
device_id updates the baseline with its device_id, UA family and (truthy)
country, an event without one leaves it unchanged, and consequently a
success preceded by no device-carrying event of that user — though not
necessarily the very first-ever success — never produces an alert. -/
theorem ndu_walk_policy :
    (∀ (u : String) (b : DeviceBaseline) (e : AuthEvent) (rest : List AuthEvent),
      b.device_ids = [] → ndu_walk u b (e :: rest) = ndu_walk u (ndu_update b e) rest)
    ∧ (∀ (u : String) (b : DeviceBaseline) (e : AuthEvent) (rest : List AuthEvent),
        e.result = "success" → b.device_ids ≠ [] →
          ndu_walk u b (e :: rest)
            = (check_for_anomaly e b u).toList ++ ndu_walk u (ndu_update b e) rest)
    ∧ (∀ (b : DeviceBaseline) (e : AuthEvent),
        (deviceTruthy e = true →
          ndu_update b e =
            { device_ids := insertNew b.device_ids (e.device_id.getD ""),
              ua_families := insertNew b.ua_families (get_ua_family e.user_agent),
              countries := match e.country with
                | some c => if c = "" then b.countries else insertNew b.countries c
                | none => b.countries,
              last_seen := some e.ts })
          ∧ (deviceTruthy e = false → ndu_update b e = b))
    ∧ (∀ (u : String) (l1 : List AuthEvent) (e : AuthEvent) (l2 : List AuthEvent),
        (∀ x ∈ l1, deviceTruthy x = false) →
          ndu_walk u emptyBaseline (l1 ++ e :: l2)
            = ndu_walk u (ndu_update emptyBaseline e) l2) := by
  refine ⟨ndu_walk_empty_baseline, ?_, ?_, ?_⟩
  · intro u b e rest hsucc hne
    simp [ndu_walk, hsucc, hne]
  · intro b e
    constructor
    · intro ht; simp [ndu_update, ht]
    · intro hf; simp [ndu_update, hf]
  · intro u l1 e l2 hfree
    induction l1 with
    | nil => exact ndu_walk_empty_baseline u emptyBaseline e l2 rfl
    | cons x l1 ih =>
      have hx : deviceTruthy x = false := hfree x (List.mem_cons_self x l1)
      have hupd : ndu_update emptyBaseline x = emptyBaseline := by
        simp [ndu_update, hx]
      rw [List.cons_append, ndu_walk_empty_baseline u emptyBaseline x (l1 ++ e :: l2) rfl, hupd]
      exact ih (fun y hy => hfree y (List.mem_cons_of_mem x hy))

/-- C7 witness: the no-device-prefix conjunct evaluated on a concrete
device-free failure followed by a success. -/
theorem ndu_walk_policy_witness :
    ndu_walk "dave" emptyBaseline
        ([{ event_id := "q1", user := "dave", ts := 0, source_ip := "5.5.5.5",
            result := "failure" }] ++
          [{ event_id := "q2", user := "dave", ts := 100, source_ip := "5.5.5.6",
             country := some "US", device_id := some "d2", result := "success" }])
      = ndu_walk "dave"
          (ndu_update emptyBaseline
            { event_id := "q2", user := "dave", ts := 100, source_ip := "5.5.5.6",
              country := some "US", device_id := some "d2", result := "success" }) [] :=
  ndu_walk_policy.2.2.2 "dave"
    [{ event_id := "q1", user := "dave", ts := 0, source_ip := "5.5.5.5",
       result := "failure" }]
    { event_id := "q2", user := "dave", ts := 100, source_ip := "5.5.5.6",
      country := some "US", device_id := some "d2", result := "success" } []
    (by decide)

/-! ### correlate.py -/

/-- `_share_indicators` (correlate.py): a shared IP or a shared device_id
through the standardized evidence keys (set intersection as membership). -/
def share_indicators (alert1 alert2 : Alert) : Bool :=
  alert1.evidence.ips.any (fun ip => ip ∈ alert2.evidence.ips)
    || alert1.evidence.device_ids.any (fun d => d ∈ alert2.evidence.device_ids)

/-- The inner loop of `_merge_alerts_into_cases` deciding whether `alert`
merges with the open group: some member passes the time-proximity check or
shares indicators. `w` is the window in seconds. -/
def should_merge (w : Int) (current_group : List Alert) (alert : Alert) : Bool :=
  current_group.any (fun existing =>
    decide (alert.ts_start ≤ existing.ts_end + w) || share_indicators alert existing)

/-- The greedy pass of `_merge_alerts_into_cases`: append to the open group
on a merge, otherwise close it and open a new group. -/
def merge_go (w : Int) (groups : List (List Alert)) (current_group : List Alert) :
    List Alert → List (List Alert)
  | [] => groups ++ [current_group]
  | a :: rest =>
    if should_merge w current_group a then merge_go w groups (current_group ++ [a]) rest
    else merge_go w (groups ++ [current_group]) [a] rest

/-- `_merge_alerts_into_cases` (correlate.py); the window is
`timedelta(hours=window_hours)`, that is `3600 * window_hours` seconds. -/
def merge_alerts_into_cases (user : String) (alerts : List Alert)
    (window_hours : Int) : List (List Alert) :=
  match alerts with
  | [] => []
  | a :: rest => merge_go (3600 * window_hours) [] [a] rest

/-- The id-deduplicated union of `related_event_ids` over the member alerts
(`event_ids.update(...)` on a python set, in first-occurrence order). -/
def collect_ids (alerts : List Alert) : List String :=
  alerts.foldl (fun acc a => a.related_event_ids.foldl insertNew acc) []

/-- `_build_timeline` (correlate.py): resolve each collected id through the
event index, skipping ids that are absent (logged, never an error), then
sort by timestamp. -/
def build_timeline (alerts : List Alert) (event_index : List (String × AuthEvent)) :
    List AuthEvent :=
  List.insertionSort rTs ((collect_ids alerts).filterMap (fun i => List.lookup i event_index))

/-- Python `str.upper`, written over the character list. -/
def strUpper (s : String) : String := ⟨s.data.map Char.toUpper⟩

/-- The `detector_names` display table of `_generate_summary`, with
`dict.get(d, d)` fallback. -/
def detector_display_name (d : String) : String :=
  if d = "impossible_travel" then "impossible travel patterns"
  else if d = "fail_success_chain" then "brute force/credential stuffing attempts"
  else if d = "new_device_ua" then "new device anomalies"
  else d

/-- `_generate_summary` (correlate.py). -/
def generate_summary (user : String) (alerts : List Alert) (severity : String)
    (timeline : List AuthEvent) : String :=
  let detector_descriptions :=
    (List.insertionSort (fun a b : String => a ≤ b)
      (keysInOrder Alert.detector alerts)).map detector_display_name
  let detection_text :=
    if 1 < detector_descriptions.length then
      String.intercalate ", " detector_descriptions.dropLast
        ++ " and " ++ detector_descriptions.getLastD ""
    else match detector_descriptions with
      | [d] => d
      | _ => "suspicious activity"
  let success_count := (timeline.filter (fun e => e.result = "success")).length
  let failure_count := (timeline.filter (fun e => e.result = "failure")).length
  let unique_ips := (keysInOrder AuthEvent.source_ip timeline).length
  let unique_countries :=
    (keysInOrder (fun c => c) (timeline.filterMap (fun e => match e.country with
      | some c => if c = "" then none else some c
      | none => none))).length
  "A " ++ strUpper severity ++ "-severity security incident was detected for user "
    ++ user ++ " involving " ++ detection_text ++ ". "
    ++ "The incident spans " ++ toString alerts.length ++ " alert(s) and "
    ++ toString timeline.length ++ " authentication event(s). "
    ++ (if 0 < failure_count then
          "There were " ++ toString failure_count ++ " failed and "
            ++ toString success_count ++ " successful login attempts. "
        else "")
    ++ (if 1 < unique_ips then
          "Activity originated from " ++ toString unique_ips ++ " distinct IP addresses"
            ++ (if 1 < unique_countries then
                  " across " ++ toString unique_countries ++ " countries"
                else "")
            ++ ". "
        else "")
    ++ "Immediate investigation is recommended."

/-- `_generate_recommendations` (correlate.py). -/
def generate_recommendations (alerts : List Alert) : List String :=
  let detectors := keysInOrder Alert.detector alerts
  ["Contact user to verify recent login activity"]
    ++ (if "impossible_travel" ∈ detectors then
          ["Verify user\x27s actual location and travel history",
           "Check for VPN or proxy usage"]
        else [])
    ++ (if "fail_success_chain" ∈ detectors then
          ["Reset user credentials immediately",
           "Enable or verify MFA enrollment",
           "Review and block suspicious source IPs"]
        else [])
    ++ (if "new_device_ua" ∈ detectors then
          ["Confirm new device is authorized by user",
           "Review device enrollment policies"]
        else [])
    ++ ["Review conditional access policies",
        "Check for data exfiltration or account changes",
        "Document incident for compliance records"]

/-- `min(a.ts_start for a in alerts)` over a non-empty group. -/
def case_ts_start : List Alert → Int
  | [] => 0
  | a :: rest => rest.foldl (fun m b => min m b.ts_start) a.ts_start

/-- `max(a.ts_end for a in alerts)` over a non-empty group. -/
def case_ts_end : List Alert → Int
  | [] => 0
  | a :: rest => rest.foldl (fun m b => max m b.ts_end) a.ts_end

/-- `_build_case` (correlate.py), with the freshly generated identifier
passed in (`uuid.uuid4()` is external randomness). -/
def build_case (case_id : String) (user : String) (alerts : List Alert)
    (event_index : List (String × AuthEvent)) : Case :=
  let score_sev := calculate_case_score alerts
  let timeline := build_timeline alerts event_index
  { case_id := case_id,
    user := user,
    ts_start := case_ts_start alerts,
    ts_end := case_ts_end alerts,
    alerts := alerts,
    overall_severity := score_sev.2,
    overall_score := score_sev.1,
    summary := generate_summary user alerts score_sev.2 timeline,
    recommended_actions := generate_recommendations alerts,
    timeline := timeline }

/-- The `severity_order` table of `correlate_cases`, with default 4. -/
def severity_rank (severity : String) : Nat :=
  if severity = "critical" then 0
  else if severity = "high" then 1
  else if severity = "medium" then 2
  else if severity = "low" then 3
  else 4

/-- Ordering of cases by `(severity rank, ts_start)`, the key of the final
`cases.sort`. -/
def rCase (c d : Case) : Prop :=
  severity_rank c.overall_severity < severity_rank d.overall_severity
    ∨ (severity_rank c.overall_severity = severity_rank d.overall_severity
        ∧ c.ts_start ≤ d.ts_start)

instance : DecidableRel rCase := fun c d =>
  inferInstanceAs (Decidable (_ ∨ _))

instance : IsTotal Case rCase := ⟨fun c d => by
  rcases lt_trichotomy (severity_rank c.overall_severity) (severity_rank d.overall_severity)
    with h | h | h
  · exact Or.inl (Or.inl h)
  · rcases le_total c.ts_start d.ts_start with h2 | h2
    · exact Or.inl (Or.inr ⟨h, h2⟩)
    · exact Or.inr (Or.inr ⟨h.symm, h2⟩)
  · exact Or.inr (Or.inl h)⟩

instance : IsTrans Case rCase := ⟨fun a b c hab hbc => by
  rcases hab with h1 | ⟨h1, h1b⟩ <;> rcases hbc with h2 | ⟨h2, h2b⟩
  · exact Or.inl (lt_trans h1 h2)
  · exact Or.inl (lt_of_lt_of_eq h1 h2)
  · exact Or.inl (lt_of_eq_of_lt h1 h2)
  · exact Or.inr ⟨h1.trans h2, le_trans h1b h2b⟩⟩

/-- `correlate_cases` (correlate.py): group alerts by user, sort each group
by ts_start, run the greedy merge pass, build one case per group (the k-th
built case receiving the k-th generated identifier), and sort all cases by
severity rank then start time. -/
def correlate_cases (gen : Nat → String) (alerts : List Alert)
    (event_index : List (String × AuthEvent)) (window_hours : Int := 8) : List Case :=
  if alerts.isEmpty then []
  else
    let user_groups := groupByKey Alert.user alerts
    let case_groups :=
      (user_groups.map (fun p =>
        (merge_alerts_into_cases p.1 (List.insertionSort rStart p.2) window_hours).map
          (fun g => (p.1, g)))).flatten
    let cases := case_groups.enum.map (fun q => build_case (gen q.1) q.2.1 q.2.2 event_index)
    List.insertionSort rCase cases

lemma merge_go_flatten (w : Int) :
    ∀ (l : List Alert) (groups : List (List Alert)) (cur : List Alert),
      (merge_go w groups cur l).flatten = groups.flatten ++ cur ++ l := by
  intro l
  induction l with
  | nil => intro groups cur; simp [merge_go]
  | cons a rest ih =>
    intro groups cur
    simp only [merge_go]
    split
    · rw [ih]; simp
    · rw [ih]; simp

lemma should_merge_iff (w : Int) (cur : List Alert) (a : Alert) :
    should_merge w cur a = true ↔
      ∃ ex ∈ cur, a.ts_start ≤ ex.ts_end + w ∨ share_indicators a ex = true := by
  simp [should_merge, List.any_eq_true]

/-- Two plain alerts for the C3 witness. -/
def exC3a : Alert :=
  { alert_id := "B1", detector := "impossible_travel", ts_start := 0, ts_end := 100,
    user := "fred", severity := "medium", score := 50, title := "t",
    evidence := { ips := ["9.9.9.9"] } }

/-- A second plain alert for the C3 witness, starting inside the window. -/
def exC3b : Alert :=
  { alert_id := "B2", detector := "new_device_ua", ts_start := 200, ts_end := 200,
    user := "fred", severity := "medium", score := 50, title := "t",
    evidence := { ips := ["8.8.8.8"] } }

/-- C3: the greedy pass appends a candidate to the open group exactly when
some member of the open group passes the time-proximity check or shares an
IP or device id with it, otherwise it closes the group and opens a new one;
the produced groups concatenate back to the input (so a closed group never
receives a later alert); and a two-alert list merges into one group
whenever the second alert starts within the window of the first or shares
an indicator with it, regardless of the other condition. -/
theorem merge_pass_spec :
    (∀ (user : String) (window_hours : Int) (alerts : List Alert),
      (merge_alerts_into_cases user alerts window_hours).flatten = alerts)
    ∧ (∀ (w : Int) (groups : List (List Alert)) (cur : List Alert) (a : Alert)
          (rest : List Alert),
        ((∃ ex ∈ cur, a.ts_start ≤ ex.ts_end + w ∨ share_indicators a ex = true) →
          merge_go w groups cur (a :: rest) = merge_go w groups (cur ++ [a]) rest)
        ∧ (¬ (∃ ex ∈ cur, a.ts_start ≤ ex.ts_end + w ∨ share_indicators a ex = true) →
          merge_go w groups cur (a :: rest) = merge_go w (groups ++ [cur]) [a] rest))
    ∧ (∀ (user : String) (window_hours : Int) (a b : Alert),
        b.ts_start ≤ a.ts_end + 3600 * window_hours →
          merge_alerts_into_cases user [a, b] window_hours = [[a, b]])
    ∧ (∀ (user : String) (window_hours : Int) (a b : Alert),
        share_indicators b a = true →
          merge_alerts_into_cases user [a, b] window_hours = [[a, b]]) := by
  refine ⟨?_, ?_, ?_, ?_⟩
  · intro user wh alerts
    match alerts with
    | [] => rfl
    | a :: rest => simp [merge_alerts_into_cases, merge_go_flatten]
  · intro w groups cur a rest
    constructor
    · intro hex
      have hsm : should_merge w cur a = true := (should_merge_iff w cur a).mpr hex
      simp [merge_go, hsm]
    · intro hex
      have hsm : should_merge w cur a = false := by
        rw [← Bool.not_eq_true, should_merge_iff]; exact hex
      simp [merge_go, hsm]
  · intro user wh a b h
    have hsm : should_merge (3600 * wh) [a] b = true :=
      (should_merge_iff _ _ _).mpr ⟨a, by simp, Or.inl h⟩
    simp [merge_alerts_into_cases, merge_go, hsm]
  · intro user wh a b h
    have hsm : should_merge (3600 * wh) [a] b = true :=
      (should_merge_iff _ _ _).mpr ⟨a, by simp, Or.inr h⟩
    simp [merge_alerts_into_cases, merge_go, hsm]

/-- C3 witness: the within-window conjunct evaluated on two concrete alerts
200 seconds apart with an 8 hour window. -/
theorem merge_pass_spec_witness :
    merge_alerts_into_cases "fred" [exC3a, exC3b] 8 = [[exC3a, exC3b]] :=
  merge_pass_spec.2.2.1 "fred" 8 exC3a exC3b (by decide)

lemma mem_insertNew {l : List String} {x y : String} :
    y ∈ insertNew l x ↔ y = x ∨ y ∈ l := by
  by_cases hx : x ∈ l
  · simp only [insertNew, if_pos hx]
    exact ⟨Or.inr, fun h => h.elim (fun he => he ▸ hx) id⟩
  · simp only [insertNew, if_neg hx, List.mem_append, List.mem_singleton]
    exact or_comm

lemma nodup_insertNew {l : List String} {x : String} (h : l.Nodup) :
    (insertNew l x).Nodup := by
  by_cases hx : x ∈ l
  · simpa [insertNew, hx] using h
  · simp only [insertNew, if_neg hx]
    exact List.nodup_append.mpr ⟨h, List.nodup_singleton x, by simpa using hx⟩

lemma mem_foldl_insertNew (ids : List String) :
    ∀ (acc : List String) (y : String),
      y ∈ ids.foldl insertNew acc ↔ y ∈ acc ∨ y ∈ ids := by
  induction ids with
  | nil => intro acc y; simp
  | cons i ids ih =>
    intro acc y
    simp only [List.foldl_cons, ih, mem_insertNew, List.mem_cons]
    tauto

lemma nodup_foldl_insertNew (ids : List String) :
    ∀ (acc : List String), acc.Nodup → (ids.foldl insertNew acc).Nodup := by
  induction ids with
  | nil => intro acc h; simpa using h
  | cons i ids ih =>
    intro acc h
    exact ih _ (nodup_insertNew h)

lemma mem_collect_ids_gen (alerts : List Alert) :
    ∀ (acc : List String) (i : String),
      i ∈ alerts.foldl (fun acc a => a.related_event_ids.foldl insertNew acc) acc ↔
        i ∈ acc ∨ ∃ a ∈ alerts, i ∈ a.related_event_ids := by
  induction alerts with
  | nil => intro acc i; simp
  | cons a alerts ih =>
    intro acc i
    simp only [List.foldl_cons, ih, mem_foldl_insertNew, List.mem_cons]
    constructor
    · rintro ((h | h) | ⟨b, hb, hi⟩)
      · exact Or.inl h
      · exact Or.inr ⟨a, Or.inl rfl, h⟩
      · exact Or.inr ⟨b, Or.inr hb, hi⟩
    · rintro (h | ⟨b, rfl | hb, hi⟩)
      · exact Or.inl (Or.inl h)
      · exact Or.inl (Or.inr hi)
      · exact Or.inr ⟨b, hb, hi⟩

lemma mem_collect_ids {alerts : List Alert} {i : String} :
    i ∈ collect_ids alerts ↔ ∃ a ∈ alerts, i ∈ a.related_event_ids := by
  simpa [collect_ids] using mem_collect_ids_gen alerts [] i

lemma collect_ids_nodup (alerts : List Alert) : (collect_ids alerts).Nodup := by
  suffices hgen : ∀ (acc : List String), acc.Nodup →
      (alerts.foldl (fun acc a => a.related_event_ids.foldl insertNew acc) acc).Nodup from
    hgen [] List.nodup_nil
  induction alerts with
  | nil => intro acc h; simpa using h
  | cons a alerts ih =>
    intro acc h
    exact ih _ (nodup_foldl_insertNew _ _ h)

lemma filterMap_lookup_map_event_id {idx : List (String × AuthEvent)}
    (hwf : ∀ i e, List.lookup i idx = some e → e.event_id = i) :
    ∀ ids : List String,
      ((ids.filterMap (fun i => List.lookup i idx)).map AuthEvent.event_id)
        = ids.filter (fun i => (List.lookup i idx).isSome) := by
  intro ids
  induction ids with
  | nil => simp
  | cons i ids ih =>
    cases h : List.lookup i idx with
    | none => simp [List.filterMap_cons, List.filter_cons, h, ih]
    | some e =>
      simp [List.filterMap_cons, List.filter_cons, h, ih, hwf i e h]

/-- The resolvable event of the C8 witness index. -/
def exT1 : AuthEvent :=
  { event_id := "t1", user := "gina", ts := 5, source_ip := "7.7.7.7", result := "success" }

/-- A C8 witness alert referencing one resolvable and one unresolvable id. -/
def exC8alert : Alert :=
  { alert_id := "C8", detector := "new_device_ua", ts_start := 0, ts_end := 0,
    user := "gina", severity := "low", score := 25, title := "t",
    evidence := {}, related_event_ids := ["t1", "missing"] }

/-- The C8 witness index: only `t1` resolves. -/
def exC8idx : List (String × AuthEvent) := [("t1", exT1)]

/-- C8: the case timeline is a permutation of the deduplicated union of the
member alerts related ids resolved through the event index (an id absent
from the index is skipped, never an error), it is sorted by timestamp
ascending, an event appears in it exactly when some collected id resolves
to it, the collected ids are exactly the ids related to some member alert,
without duplicates, and under a well-formed index (each key resolving to an
event carrying that id) the timeline holds no duplicate event ids. -/
theorem build_timeline_spec (alerts : List Alert) (idx : List (String × AuthEvent)) :
    (build_timeline alerts idx).Perm
        ((collect_ids alerts).filterMap (fun i => List.lookup i idx))
      ∧ List.Sorted rTs (build_timeline alerts idx)
      ∧ (∀ e, e ∈ build_timeline alerts idx ↔
          ∃ i ∈ collect_ids alerts, List.lookup i idx = some e)
      ∧ (∀ i, i ∈ collect_ids alerts ↔ ∃ a ∈ alerts, i ∈ a.related_event_ids)
      ∧ (collect_ids alerts).Nodup
      ∧ ((∀ i e, List.lookup i idx = some e → e.event_id = i) →
          ((build_timeline alerts idx).map AuthEvent.event_id).Nodup) := by
  refine ⟨List.perm_insertionSort rTs _, List.sorted_insertionSort rTs _, ?_, ?_,
    collect_ids_nodup alerts, ?_⟩
  · intro e
    simp [build_timeline, List.mem_insertionSort, List.mem_filterMap]
  · intro i
    exact mem_collect_ids
  · intro hwf
    have hperm :
        ((build_timeline alerts idx).map AuthEvent.event_id).Perm
          (((collect_ids alerts).filterMap (fun i => List.lookup i idx)).map
            AuthEvent.event_id) :=
      (List.perm_insertionSort rTs _).map AuthEvent.event_id
    rw [filterMap_lookup_map_event_id hwf] at hperm
    exact hperm.nodup_iff.mpr ((collect_ids_nodup alerts).filter _)

/-- C8 witness: the well-formed-index conjunct evaluated for one alert
whose related ids are one resolvable id and one unresolvable id. -/
theorem build_timeline_spec_witness :
    ((build_timeline [exC8alert] exC8idx).map AuthEvent.event_id).Nodup :=
  (build_timeline_spec [exC8alert] exC8idx).2.2.2.2.2 (by
    intro i e h
    by_cases hi : i = "t1"
    · subst hi
      simp only [exC8idx, List.lookup] at h
      simp only [beq_self_eq_true, if_pos] at h
      cases h
      rfl
    · have hbeq : (i == "t1") = false := beq_eq_false_iff_ne.mpr hi
      simp [exC8idx, List.lookup, hbeq] at h)

/-- Every field of a Case except the freshly generated `case_id`. -/
structure CaseCore where
  user : String
  ts_start : Int
  ts_end : Int
  alerts : List Alert
  overall_severity : String
  overall_score : Nat
  summary : String
  recommended_actions : List String
  timeline : List AuthEvent
deriving DecidableEq, Repr

/-- Projection of a Case onto everything but its identifier. -/
def caseCore (c : Case) : CaseCore :=
  ⟨c.user, c.ts_start, c.ts_end, c.alerts, c.overall_severity, c.overall_score,
    c.summary, c.recommended_actions, c.timeline⟩

lemma rCase_of_core {c1 c2 d1 d2 : Case} (hc : caseCore c1 = caseCore c2)
    (hd : caseCore d1 = caseCore d2) : rCase c1 d1 ↔ rCase c2 d2 := by
  have h1 : c1.overall_severity = c2.overall_severity :=
    congrArg CaseCore.overall_severity hc
  have h2 : d1.overall_severity = d2.overall_severity :=
    congrArg CaseCore.overall_severity hd
  have h3 : c1.ts_start = c2.ts_start := congrArg CaseCore.ts_start hc
  have h4 : d1.ts_start = d2.ts_start := congrArg CaseCore.ts_start hd
  simp [rCase, h1, h2, h3, h4]

lemma orderedInsert_map_core :
    ∀ (l1 l2 : List Case) (c1 c2 : Case), caseCore c1 = caseCore c2 →
      l1.map caseCore = l2.map caseCore →
      (List.orderedInsert rCase c1 l1).map caseCore
        = (List.orderedInsert rCase c2 l2).map caseCore := by
  intro l1
  induction l1 with
  | nil =>
    intro l2 c1 c2 hc hl
    have : l2 = [] := by simpa using List.map_eq_nil.mp hl.symm
    subst this
    simpa using hc
  | cons b1 t1 ih =>
    intro l2 c1 c2 hc hl
    match l2, hl with
    | b2 :: t2, hl =>
      simp only [List.map_cons] at hl
      injection hl with hb ht
      by_cases hr : rCase c1 b1
      · rw [List.orderedInsert, List.orderedInsert, if_pos hr,
          if_pos ((rCase_of_core hc hb).mp hr)]
        simp [hc, hb, ht]
      · rw [List.orderedInsert, List.orderedInsert, if_neg hr,
          if_neg (fun h => hr ((rCase_of_core hc hb).mpr h))]
        simp only [List.map_cons, hb]
        rw [ih t2 c1 c2 hc ht]

lemma insertionSort_map_core :
    ∀ (l1 l2 : List Case), l1.map caseCore = l2.map caseCore →
      (List.insertionSort rCase l1).map caseCore
        = (List.insertionSort rCase l2).map caseCore := by
  intro l1
  induction l1 with
  | nil =>
    intro l2 hl
    have : l2 = [] := by simpa using List.map_eq_nil.mp hl.symm
    subst this
    rfl
  | cons c1 t1 ih =>
    intro l2 hl
    match l2, hl with
    | c2 :: t2, hl =>
      simp only [List.map_cons] at hl
      injection hl with hc ht
      exact orderedInsert_map_core _ _ c1 c2 hc (ih t2 ht)

/-- C9: `correlate_cases` is deterministic up to case identifiers: two runs
on the same alert list, event index and window, differing only in the
identifier generator, produce the same number of cases in the same final
order, with identical user, time span, alert membership, overall score and
severity, summary, recommended actions and timeline; only `case_id` may
differ. -/
theorem correlate_deterministic (g1 g2 : Nat → String) (alerts : List Alert)
    (event_index : List (String × AuthEvent)) (window_hours : Int) :
    (correlate_cases g1 alerts event_index window_hours).map caseCore
      = (correlate_cases g2 alerts event_index window_hours).map caseCore := by
  by_cases he : alerts.isEmpty
  · simp [correlate_cases, he]
  · simp only [correlate_cases, if_neg he]
    apply insertionSort_map_core
    simp only [List.map_map]
    exact List.map_congr_left (fun q _ => rfl)

lemma scanBack_subset {ws : Int} {x : AuthEvent} :
    ∀ {l : List AuthEvent}, x ∈ scanBack ws l → x ∈ l := by
  intro l
  induction l with
  | nil => intro h; simp [scanBack] at h
  | cons e rest ih =>
    intro h
    simp only [scanBack] at h
    split at h
    · simp at h
    · rcases List.mem_append.mp h with h | h
      · split at h
        · simp at h; simp [h]
        · simp at h
      · exact List.mem_cons_of_mem e (ih h)

lemma fsc_create_alert_ts {u : String} {failures : List AuthEvent} {e : AuthEvent}
    {counts : List (String × Nat)} {atk : String} {th : Int}
    (hfail : ∀ x ∈ failures, x.ts ≤ e.ts) :
    (fsc_create_alert u failures e counts atk th).ts_start
      ≤ (fsc_create_alert u failures e counts atk th).ts_end := by
  show ((List.insertionSort rTs failures).headD e).ts ≤ e.ts
  cases hs : List.insertionSort rTs failures with
  | nil => simp
  | cons f t =>
    have hf : f ∈ List.insertionSort rTs failures := by
      rw [hs]; exact List.mem_cons_self f t
    have hmem : f ∈ failures := (List.mem_insertionSort rTs).mp hf
    simpa using hfail f hmem

lemma fsc_step_ts {wm sip mip : Int} {u : String} {prevRev : List AuthEvent}
    {e : AuthEvent} {a : Alert} (hprev : ∀ x ∈ prevRev, x.ts ≤ e.ts)
    (h : fsc_success_step wm sip mip u prevRev e = some a) :
    a.ts_start ≤ a.ts_end := by
  have hfail : ∀ x ∈ scanBack (e.ts - 60 * wm) prevRev, x.ts ≤ e.ts :=
    fun x hx => hprev x (scanBack_subset hx)
  simp only [fsc_success_step] at h
  split at h
  · simp at h
  · split at h
    · cases h; exact fsc_create_alert_ts hfail
    · split at h
      · cases h; exact fsc_create_alert_ts hfail
      · simp at h

lemma fsc_scan_ts {wm sip mip : Int} {u : String} :
    ∀ (l prevRev : List AuthEvent), List.Pairwise rTs (prevRev.reverse ++ l) →
      ∀ a ∈ fsc_scan wm sip mip u prevRev l, a.ts_start ≤ a.ts_end := by
  intro l
  induction l with
  | nil => intro prevRev _ a ha; simp [fsc_scan] at ha
  | cons e rest ih =>
    intro prevRev H a ha
    simp only [fsc_scan, List.mem_append] at ha
    rcases ha with ha | ha
    · have hprev : ∀ x ∈ prevRev, x.ts ≤ e.ts := by
        intro x hx
        exact ((List.pairwise_append.mp H).2.2 x (List.mem_reverse.mpr hx) e
          (List.mem_cons_self e rest))
      by_cases hs : e.result = "success"
      · simp only [hs, if_pos] at ha
        exact fsc_step_ts hprev (by simpa [Option.mem_toList] using ha)
      · simp [hs] at ha
    · apply ih (e :: prevRev) _ a ha
      rw [List.reverse_cons, List.append_assoc]
      simpa using H

lemma ndu_check_ts {e : AuthEvent} {b : DeviceBaseline} {u : String} {a : Alert}
    (h : check_for_anomaly e b u = some a) : a.ts_start = a.ts_end := by
  simp only [check_for_anomaly] at h
  split at h
  · simp at h
  · cases h; rfl

lemma mem_ndu_walk {u : String} {a : Alert} :
    ∀ {l : List AuthEvent} {b : DeviceBaseline}, a ∈ ndu_walk u b l →
      ∃ e b2, check_for_anomaly e b2 u = some a := by
  intro l
  induction l with
  | nil => intro b h; simp [ndu_walk] at h
  | cons e rest ih =>
    intro b h
    simp only [ndu_walk, List.mem_append] at h
    rcases h with h | h
    · split at h
      · exact ⟨e, b, by simpa [Option.mem_toList] using h⟩
      · simp at h
    · exact ih h

/-- C10: every alert constructed by any of the three detectors, for every
input event list, distance function and threshold setting, satisfies
`ts_start ≤ ts_end`. -/
theorem alert_ts_start_le_ts_end (dist : ℚ → ℚ → ℚ → ℚ → ℚ) (events : List AuthEvent)
    (th mh : ℚ) (wm sip mip lookback : Int) (a : Alert)
    (h : a ∈ detect_impossible_travel dist events th mh
      ∨ a ∈ detect_fail_success_chain events wm sip mip
      ∨ a ∈ detect_new_device events lookback) :
    a.ts_start ≤ a.ts_end := by
  rcases h with h | h | h
  · rcases mem_detect_it h with ⟨u, l1, e1, e2, l2, _, halert⟩
    rcases it_pair_alert_some halert with ⟨_, _, _, hshape⟩
    rw [hshape]
    show min e1.ts e2.ts ≤ max e1.ts e2.ts
    exact le_trans (min_le_left _ _) (le_max_left _ _)
  · simp only [detect_fail_success_chain, List.mem_flatten, List.mem_map] at h
    rcases h with ⟨bucket, ⟨p, hp, rfl⟩, hmem⟩
    apply fsc_scan_ts (List.insertionSort rTs p.2) [] _ a hmem
    simpa using List.sorted_insertionSort rTs p.2
  · simp only [detect_new_device, List.mem_flatten, List.mem_map] at h
    rcases h with ⟨bucket, ⟨p, hp, rfl⟩, hmem⟩
    rcases mem_ndu_walk hmem with ⟨e, b2, hcheck⟩
    exact le_of_eq (ndu_check_ts hcheck)

/-- C10 witness: the time-span invariant evaluated on the concrete
new-device alert of the C6 scenario. -/
theorem alert_ts_start_le_ts_end_witness :
    ((detect_new_device exC6events 30).headD dummyAlert).ts_start
      ≤ ((detect_new_device exC6events 30).headD dummyAlert).ts_end :=
  alert_ts_start_le_ts_end itDist exC6events 900 6 20 8 15 30
    ((detect_new_device exC6events 30).headD dummyAlert)
    (Or.inr (Or.inr (by decide)))
